import Mathlib

/-
  Verification of the custom scrollbar component
  (src/src/components/Scrollbar/index.tsx).

  The component's arithmetic runs on JavaScript numbers.  We model a
  JavaScript number as either NaN, +Infinity, -Infinity, or a finite
  value, with finite values idealised as exact rationals.  The special
  values follow IEEE-754 / ECMAScript semantics for the operations the
  component uses (division by zero, NaN propagation through Math.min /
  Math.max, and so on).
-/

namespace Scrollbar

/-- A JavaScript number: NaN, +Infinity, -Infinity, or a finite value
(idealised as an exact rational). -/
inductive JSNum where
  | nan : JSNum
  | posInf : JSNum
  | negInf : JSNum
  | fin : ℚ → JSNum
deriving DecidableEq, Repr

/-- JavaScript addition on `JSNum` (ECMAScript semantics for the special
values; exact arithmetic on finite values). -/
def jsAdd : JSNum → JSNum → JSNum
  | .nan, _ => .nan
  | _, .nan => .nan
  | .posInf, .negInf => .nan
  | .negInf, .posInf => .nan
  | .posInf, _ => .posInf
  | _, .posInf => .posInf
  | .negInf, _ => .negInf
  | _, .negInf => .negInf
  | .fin a, .fin b => .fin (a + b)

/-- JavaScript subtraction on `JSNum`. -/
def jsSub : JSNum → JSNum → JSNum
  | .nan, _ => .nan
  | _, .nan => .nan
  | .posInf, .posInf => .nan
  | .negInf, .negInf => .nan
  | .posInf, _ => .posInf
  | .negInf, _ => .negInf
  | _, .posInf => .negInf
  | _, .negInf => .posInf
  | .fin a, .fin b => .fin (a - b)

/-- JavaScript unary negation on `JSNum`. -/
def jsNeg : JSNum → JSNum
  | .nan => .nan
  | .posInf => .negInf
  | .negInf => .posInf
  | .fin a => .fin (-a)

/-- JavaScript multiplication on `JSNum`; an infinity times zero is NaN. -/
def jsMul : JSNum → JSNum → JSNum
  | .nan, _ => .nan
  | _, .nan => .nan
  | .posInf, .posInf => .posInf
  | .posInf, .negInf => .negInf
  | .negInf, .posInf => .negInf
  | .negInf, .negInf => .posInf
  | .posInf, .fin b => if b = 0 then .nan else if 0 < b then .posInf else .negInf
  | .negInf, .fin b => if b = 0 then .nan else if 0 < b then .negInf else .posInf
  | .fin a, .posInf => if a = 0 then .nan else if 0 < a then .posInf else .negInf
  | .fin a, .negInf => if a = 0 then .nan else if 0 < a then .negInf else .posInf
  | .fin a, .fin b => .fin (a * b)

/-- JavaScript division on `JSNum`: `0 / 0 = NaN`, a nonzero finite value
divided by zero gives a signed infinity (zero is modelled as `+0`), a
finite value divided by an infinity gives zero. -/
def jsDiv : JSNum → JSNum → JSNum
  | .nan, _ => .nan
  | _, .nan => .nan
  | .posInf, .posInf => .nan
  | .posInf, .negInf => .nan
  | .negInf, .posInf => .nan
  | .negInf, .negInf => .nan
  | .posInf, .fin b => if 0 ≤ b then .posInf else .negInf
  | .negInf, .fin b => if 0 ≤ b then .negInf else .posInf
  | .fin _, .posInf => .fin 0
  | .fin _, .negInf => .fin 0
  | .fin a, .fin b =>
      if b = 0 then (if a = 0 then .nan else if 0 < a then .posInf else .negInf)
      else .fin (a / b)

/-- `Math.min` on `JSNum`: NaN if either argument is NaN. -/
def jsMin : JSNum → JSNum → JSNum
  | .nan, _ => .nan
  | _, .nan => .nan
  | .negInf, _ => .negInf
  | _, .negInf => .negInf
  | .posInf, b => b
  | a, .posInf => a
  | .fin a, .fin b => .fin (min a b)

/-- `Math.max` on `JSNum`: NaN if either argument is NaN. -/
def jsMax : JSNum → JSNum → JSNum
  | .nan, _ => .nan
  | _, .nan => .nan
  | .posInf, _ => .posInf
  | _, .posInf => .posInf
  | .negInf, b => b
  | a, .negInf => a
  | .fin a, .fin b => .fin (max a b)

/-- `Math.floor` on `JSNum`: identity on NaN and the infinities. -/
def jsFloor : JSNum → JSNum
  | .fin q => .fin ⌊q⌋
  | x => x

theorem jsAdd_fin (a b : ℚ) : jsAdd (.fin a) (.fin b) = .fin (a + b) := rfl

theorem jsSub_fin (a b : ℚ) : jsSub (.fin a) (.fin b) = .fin (a - b) := rfl

theorem jsMul_fin (a b : ℚ) : jsMul (.fin a) (.fin b) = .fin (a * b) := rfl

theorem jsMin_fin (a b : ℚ) : jsMin (.fin a) (.fin b) = .fin (min a b) := rfl

theorem jsMax_fin (a b : ℚ) : jsMax (.fin a) (.fin b) = .fin (max a b) := rfl

theorem jsNeg_fin (a : ℚ) : jsNeg (.fin a) = .fin (-a) := rfl

theorem jsFloor_fin (q : ℚ) : jsFloor (.fin q) = .fin ⌊q⌋ := rfl

theorem jsDiv_fin (a b : ℚ) (hb : b ≠ 0) : jsDiv (.fin a) (.fin b) = .fin (a / b) := by
  simp [jsDiv, hb]

/-- The content element (`contentRef.current`): the scrollable surface.
`scrollTop`, `scrollHeight` and `clientHeight` are the DOM measurements the
component reads.  The drag handler destructures `offsetHeight` from this
element; for the borderless content box of this component the offset height
coincides with the visible extent, so it is modelled by the same
`clientHeight` field (the spec's ContentGeometry carries a single visible
extent). -/
structure ContentElem where
  scrollTop : ℚ
  scrollHeight : ℚ
  clientHeight : ℚ
deriving DecidableEq, Repr

/-- The track element (`scrollTrackRef.current`). -/
structure TrackElem where
  clientHeight : ℚ
deriving DecidableEq, Repr

/-- The thumb element (`scrollThumbRef.current`); carries its current
`style.top`. -/
structure ThumbElem where
  top : JSNum
deriving DecidableEq, Repr

/-- Modelled from the spec: the content surface (a DOM element, outside
this repository's sources) clamps writes to its mutable scroll offset into
`[0, scrollHeight - clientHeight]` — spec §3: "clamped by the content
surface itself, not by this system".  Assigning a finite value stores the
clamped value; NaN is normalised to 0 before clamping, and the infinities
clamp to the respective end. -/
def ContentElem.setScrollTop (c : ContentElem) : JSNum → ContentElem
  | .fin q => { c with scrollTop := max 0 (min q (c.scrollHeight - c.clientHeight)) }
  | .nan => { c with scrollTop := max 0 (min 0 (c.scrollHeight - c.clientHeight)) }
  | .posInf => { c with scrollTop := max 0 (c.scrollHeight - c.clientHeight) }
  | .negInf => { c with scrollTop := 0 }

/-- `handleResize` (index.tsx lines 14-17): reads `clientHeight` and
`scrollHeight` of the content element and returns the value passed to
`setThumbHeight`, namely `Math.max((clientHeight / scrollHeight) * trackSize, 20)`. -/
def handleResize (ref : ContentElem) (trackSize : ℚ) : JSNum :=
  jsMax (jsMul (jsDiv (.fin ref.clientHeight) (.fin ref.scrollHeight)) (.fin trackSize)) (.fin 20)

/-- `handleThumbPosition` (index.tsx lines 27-35): if any of the content,
thumb or track refs is unavailable it returns without effect (modelled as
`none`); otherwise it returns the value written to the thumb's `style.top`:
`Math.min((scrollTop / scrollHeight) * trackHeight, trackHeight - thumbHeight)`.
`thumbHeight` is the React state value captured by the callback's closure. -/
def handleThumbPosition (content : Option ContentElem) (track : Option TrackElem)
    (thumb : Option ThumbElem) (thumbHeight : ℚ) : Option JSNum :=
  match content, track, thumb with
  | some c, some t, some _ =>
      some (jsMin (jsMul (jsDiv (.fin c.scrollTop) (.fin c.scrollHeight)) (.fin t.clientHeight))
        (jsSub (.fin t.clientHeight) (.fin thumbHeight)))
  | _, _, _ => none

/-- The scroll listener registered in the mount effect (index.tsx lines
102-116).  `handleThumbPosition` is memoized with `useCallback(..., [])`,
so the listener keeps the first render's closure forever; the `thumbHeight`
it reads is the initial state value `useState(20)`, regardless of any later
`setThumbHeight`. -/
def registeredScrollListener (content : Option ContentElem) (track : Option TrackElem)
    (thumb : Option ThumbElem) : Option JSNum :=
  handleThumbPosition content track thumb 20

/-- The two scroll buttons' direction argument. -/
inductive ScrollDirection where
  | up : ScrollDirection
  | down : ScrollDirection
deriving DecidableEq, Repr

/-- `handleScrollButton` (index.tsx lines 19-25): when the content ref is
available, requests `scrollBy` of +200 (down) or -200 (up); otherwise does
nothing. Returns the requested scroll amount. -/
def handleScrollButton (content : Option ContentElem) (direction : ScrollDirection) : Option ℚ :=
  match content with
  | some _ => some (match direction with | .down => 200 | .up => -200)
  | none => none

/-- `handleTrackClick` (index.tsx lines 37-64): when both the track and the
content refs are available, computes
`thumbOffset = -(thumbHeight / 2)`,
`clickRatio = (clientY - trackTop + thumbOffset) / track.clientHeight`,
`scrollAmount = Math.floor(clickRatio * content.scrollHeight)`
and requests `scrollTo` that amount; otherwise it does nothing.  Returns
the requested target offset.  `trackTop` is the bounding-rect top of the
clicked element. -/
def handleTrackClick (track : Option TrackElem) (content : Option ContentElem)
    (clientY trackTop thumbHeight : ℚ) : Option JSNum :=
  match track, content with
  | some t, some c =>
      let thumbOffset := jsNeg (jsDiv (.fin thumbHeight) (.fin 2))
      let clickRatio := jsDiv (jsAdd (jsSub (.fin clientY) (.fin trackTop)) thumbOffset)
        (.fin t.clientHeight)
      some (jsFloor (jsMul clickRatio (.fin c.scrollHeight)))
  | _, _ => none

/-- `deltaY` of the drag handler (index.tsx line 93):
`(e.clientY - scrollStartPosition) * (offsetHeight / thumbHeight)`,
where `offsetHeight` is the content element's visible extent. -/
def dragDeltaY (clientY scrollStartPosition offsetHeight thumbHeight : ℚ) : JSNum :=
  jsMul (jsSub (.fin clientY) (.fin scrollStartPosition))
    (jsDiv (.fin offsetHeight) (.fin thumbHeight))

/-- Outcome of a `mousemove` dispatch to `handleThumbMouseMove`: the
handler either does nothing, writes a new content element state, or faults
(a thrown TypeError from dereferencing a null ref). -/
inductive MoveResult where
  | fault : MoveResult
  | noop : MoveResult
  | write : ContentElem → MoveResult
deriving DecidableEq, Repr

/-- `handleThumbMouseMove` (index.tsx lines 85-99): when `isDragging` is
false it does nothing; when dragging it destructures `scrollHeight` and
`offsetHeight` from `contentRef.current!` — a fault if the content ref is
null — computes `deltaY`, then
`newScrollTop = Math.min(initialScrollTop + deltaY, scrollHeight - offsetHeight)`
and assigns it to `contentRef.current!.scrollTop` (the surface clamps the
stored value, `ContentElem.setScrollTop`). -/
def handleThumbMouseMove (isDragging : Bool)
    (scrollStartPosition initialScrollTop thumbHeight : ℚ)
    (content : Option ContentElem) (clientY : ℚ) : MoveResult :=
  if isDragging then
    match content with
    | none => .fault
    | some c =>
        let deltaY := dragDeltaY clientY scrollStartPosition c.clientHeight thumbHeight
        let newScrollTop := jsMin (jsAdd (.fin initialScrollTop) deltaY)
          (jsSub (.fin c.scrollHeight) (.fin c.clientHeight))
        .write (c.setScrollTop newScrollTop)
  else .noop

/-- Claim C1: for every geometry with scrollHeight > 0 and trackHeight > 0
(and a valid thumb, nonnegative scrollTop and thumb height at most the
track height), the scroll-sync operation sets the thumb top to
(scrollTop / scrollHeight) * trackHeight clamped to the interval
[0, trackHeight - thumbHeight]; in particular, for scrollHeight=1000,
clientHeight=200, trackHeight=300 and scrollTop=400, with thumb height
< 180, the resulting thumb top equals 120. -/
theorem C1_scroll_sync_clamped (c : ContentElem) (t : TrackElem) (th : ThumbElem)
    (h : ℚ) (h0 : 0 ≤ c.scrollTop) (h1 : 0 < c.scrollHeight) (h2 : 0 < t.clientHeight)
    (h3 : h ≤ t.clientHeight) :
    handleThumbPosition (some c) (some t) (some th) h
      = some (.fin (max 0 (min (c.scrollTop / c.scrollHeight * t.clientHeight)
          (t.clientHeight - h))))
    ∧ ∀ q : ℚ, q < 180 →
        handleThumbPosition (some ⟨400, 1000, 200⟩) (some ⟨300⟩) (some th) q
          = some (.fin 120) := by
  constructor
  · have hne : c.scrollHeight ≠ 0 := ne_of_gt h1
    have hnn : (0:ℚ) ≤ min (c.scrollTop / c.scrollHeight * t.clientHeight)
        (t.clientHeight - h) :=
      le_min (mul_nonneg (div_nonneg h0 h1.le) h2.le) (by linarith)
    simp only [handleThumbPosition, jsDiv_fin _ _ hne, jsMul_fin, jsSub_fin, jsMin_fin]
    rw [max_eq_right hnn]
  · intro q hq
    have hne : (1000:ℚ) ≠ 0 := by norm_num
    simp only [handleThumbPosition, jsDiv_fin _ _ hne, jsMul_fin, jsSub_fin, jsMin_fin]
    have h400 : (400:ℚ) / 1000 * 300 = 120 := by norm_num
    rw [h400, min_eq_left (by linarith)]

theorem C1_scroll_sync_clamped_witness :
    (0:ℚ) ≤ 400 ∧ (0:ℚ) < 1000 ∧ (0:ℚ) < 300 ∧ (20:ℚ) ≤ 300 ∧
    handleThumbPosition (some ⟨400, 1000, 200⟩) (some ⟨300⟩) (some ⟨.fin 0⟩) 20
      = some (.fin (max 0 (min (400 / 1000 * 300) (300 - 20)))) :=
  ⟨by norm_num, by norm_num, by norm_num, by norm_num,
    (C1_scroll_sync_clamped ⟨400, 1000, 200⟩ ⟨300⟩ ⟨.fin 0⟩ 20 (by norm_num) (by norm_num)
      (by norm_num) (by norm_num)).1⟩

/-- Claim C2: with scrollHeight > clientHeight > 0 and trackHeight > 0,
when the thumb height is the one computed by handleResize and the content
is scrolled to its maximum offset scrollTop = scrollHeight - clientHeight,
the scroll-sync operation sets the thumb top to exactly
trackHeight - thumbHeight; and for every scrollTop, the thumb top it
writes never exceeds trackHeight - thumbHeight. -/
theorem C2_clamp_at_extremes (c : ContentElem) (t : TrackElem) (prior : JSNum) (thumbH : ℚ)
    (h1 : 0 < c.clientHeight) (h2 : c.clientHeight < c.scrollHeight) (h3 : 0 < t.clientHeight)
    (hth : handleResize c t.clientHeight = .fin thumbH)
    (hmax : c.scrollTop = c.scrollHeight - c.clientHeight) :
    handleThumbPosition (some c) (some t) (some ⟨prior⟩) thumbH
      = some (.fin (t.clientHeight - thumbH))
    ∧ ∀ sT v : ℚ,
        handleThumbPosition (some ⟨sT, c.scrollHeight, c.clientHeight⟩) (some t)
            (some ⟨prior⟩) thumbH = some (.fin v)
          → v ≤ t.clientHeight - thumbH := by
  have hs0 : (0:ℚ) < c.scrollHeight := h1.trans h2
  have hne : c.scrollHeight ≠ 0 := ne_of_gt hs0
  have hth2 : max (c.clientHeight / c.scrollHeight * t.clientHeight) 20 = thumbH := by
    rw [handleResize, jsDiv_fin _ _ hne, jsMul_fin, jsMax_fin] at hth
    exact JSNum.fin.inj hth
  have hr : c.clientHeight / c.scrollHeight * t.clientHeight ≤ thumbH :=
    hth2 ▸ le_max_left _ _
  constructor
  · simp only [handleThumbPosition, jsDiv_fin _ _ hne, jsMul_fin, jsSub_fin, jsMin_fin]
    have key : c.scrollTop / c.scrollHeight * t.clientHeight
        = t.clientHeight - c.clientHeight / c.scrollHeight * t.clientHeight := by
      rw [hmax]
      field_simp
      ring
    rw [key, min_eq_right (by linarith)]
  · intro sT v hv
    simp only [handleThumbPosition, jsDiv_fin _ _ hne, jsMul_fin, jsSub_fin, jsMin_fin,
      Option.some.injEq, JSNum.fin.injEq] at hv
    rw [← hv]
    exact min_le_right _ _

theorem C2_clamp_at_extremes_witness :
    (0:ℚ) < 200 ∧ (200:ℚ) < 1000 ∧ (0:ℚ) < 300 ∧
    handleResize ⟨800, 1000, 200⟩ 300 = .fin 60 ∧ (800:ℚ) = 1000 - 200 ∧
    handleThumbPosition (some ⟨800, 1000, 200⟩) (some ⟨300⟩) (some ⟨.fin 0⟩) 60
      = some (.fin (300 - 60)) := by
  have hres : handleResize ⟨800, 1000, 200⟩ 300 = .fin 60 := by
    rw [handleResize, jsDiv_fin _ _ (by norm_num : (1000:ℚ) ≠ 0), jsMul_fin, jsMax_fin]
    norm_num
  exact ⟨by norm_num, by norm_num, by norm_num, hres, by norm_num,
    (C2_clamp_at_extremes ⟨800, 1000, 200⟩ ⟨300⟩ (.fin 0) 60 (by norm_num) (by norm_num)
      (by norm_num) hres (by norm_num)).1⟩

/-- Claim C3: during an active drag session, a pointer-move event produces
the content scroll delta (clientY - startPointerY) * (visibleHeight /
thumbHeight); the handler uses exactly this delta for the offset it writes;
in particular, with a visible content height of 200 and thumbHeight=50, a
pointer movement of 25 pixels gives a delta of exactly 100 content units. -/
theorem C3_drag_scale_law (y y0 cH th : ℚ) (hth : 0 < th) :
    dragDeltaY y y0 cH th = .fin ((y - y0) * (cH / th))
    ∧ (∀ (init : ℚ) (c : ContentElem),
        handleThumbMouseMove true y0 init th (some c) y
          = .write (c.setScrollTop (jsMin (jsAdd (.fin init) (dragDeltaY y y0 c.clientHeight th))
              (jsSub (.fin c.scrollHeight) (.fin c.clientHeight)))))
    ∧ (y - y0 = 25 → cH = 200 → th = 50 → dragDeltaY y y0 cH th = .fin 100) := by
  have hne : th ≠ 0 := ne_of_gt hth
  refine ⟨?_, ?_, ?_⟩
  · rw [dragDeltaY, jsDiv_fin _ _ hne, jsSub_fin, jsMul_fin]
  · intro init c
    rfl
  · intro e1 e2 e3
    rw [dragDeltaY, jsDiv_fin _ _ hne, jsSub_fin, jsMul_fin, e1, e2, e3]
    norm_num

theorem C3_drag_scale_law_witness :
    (0:ℚ) < 50 ∧ (25:ℚ) - 0 = 25 ∧ (200:ℚ) = 200 ∧ (50:ℚ) = 50 ∧
    dragDeltaY 25 0 200 50 = .fin 100 :=
  ⟨by norm_num, by norm_num, rfl, rfl,
    (C3_drag_scale_law 25 0 200 50 (by norm_num)).2.2 (by norm_num) rfl rfl⟩

/-- Claim C4: for every pointer-move during an active drag session, the
content scroll offset that results from the drag controller's write equals
min(startScrollTop + deltaY, scrollHeight - visibleHeight) additionally
clamped to be at least 0 (the lower clamp is performed by the content
surface's scrollTop setter); in particular the resulting offset is never
negative, for every pointer position. -/
theorem C4_drag_write_clamped (y y0 init th : ℚ) (c : ContentElem) (hth : 0 < th) :
    handleThumbMouseMove true y0 init th (some c) y
      = .write { c with scrollTop := max 0 (min (init + (y - y0) * (c.clientHeight / th))
          (c.scrollHeight - c.clientHeight)) }
    ∧ (0:ℚ) ≤ max 0 (min (init + (y - y0) * (c.clientHeight / th))
        (c.scrollHeight - c.clientHeight)) := by
  have hne : th ≠ 0 := ne_of_gt hth
  have hd : dragDeltaY y y0 c.clientHeight th = .fin ((y - y0) * (c.clientHeight / th)) := by
    rw [dragDeltaY, jsDiv_fin _ _ hne, jsSub_fin, jsMul_fin]
  constructor
  · have e : handleThumbMouseMove true y0 init th (some c) y
        = .write (c.setScrollTop (jsMin (jsAdd (.fin init)
            (dragDeltaY y y0 c.clientHeight th))
            (jsSub (.fin c.scrollHeight) (.fin c.clientHeight)))) := rfl
    rw [e]
    simp only [hd, jsAdd_fin, jsSub_fin, jsMin_fin, ContentElem.setScrollTop]
    rw [min_assoc, min_self]
  · exact le_max_left _ _

theorem C4_drag_write_clamped_witness :
    (0:ℚ) < 50 ∧
    (handleThumbMouseMove true 0 0 50 (some ⟨0, 1000, 200⟩) 100
      = .write ⟨max 0 (min (0 + (100 - 0) * (200 / 50)) (1000 - 200)), 1000, 200⟩
    ∧ (0:ℚ) ≤ max 0 (min (0 + (100 - 0) * (200 / 50)) (1000 - 200))) :=
  ⟨by norm_num, C4_drag_write_clamped 100 0 0 50 ⟨0, 1000, 200⟩ (by norm_num)⟩

/-- Claim C5: for every click on the track with trackHeight > 0 and
scrollHeight > 0, the track-click controller requests a scroll of the
content to offset floor(((clickY - trackTop) - thumbHeight/2) / trackHeight
* scrollHeight); in particular, for trackHeight=300, trackTop=0,
thumbHeight=20, scrollHeight=1000 and a click at y=150, the requested
target offset is 466. -/
theorem C5_track_click_target (t : TrackElem) (c : ContentElem) (y yT th : ℚ)
    (h1 : 0 < t.clientHeight) (h2 : 0 < c.scrollHeight) :
    handleTrackClick (some t) (some c) y yT th
      = some (.fin ((⌊((y - yT) - th / 2) / t.clientHeight * c.scrollHeight⌋ : ℤ) : ℚ))
    ∧ handleTrackClick (some (⟨300⟩ : TrackElem)) (some (⟨0, 1000, 200⟩ : ContentElem)) 150 0 20
      = some (.fin 466) := by
  have hne : t.clientHeight ≠ 0 := ne_of_gt h1
  constructor
  · simp only [handleTrackClick, jsDiv_fin _ _ (by norm_num : (2:ℚ) ≠ 0), jsNeg_fin,
      jsSub_fin, jsAdd_fin, jsDiv_fin _ _ hne, jsMul_fin, jsFloor_fin]
    have key : y - yT + -(th / 2) = (y - yT) - th / 2 := by ring
    rw [key]
  · simp only [handleTrackClick, jsDiv_fin _ _ (by norm_num : (2:ℚ) ≠ 0), jsNeg_fin,
      jsSub_fin, jsAdd_fin, jsDiv_fin _ _ (by norm_num : (300:ℚ) ≠ 0), jsMul_fin, jsFloor_fin]
    have key : ((150:ℚ) - 0 + -(20 / 2)) / 300 * 1000 = 1400 / 3 := by norm_num
    rw [key]
    have hfl : (⌊(1400:ℚ) / 3⌋ : ℤ) = 466 := by
      rw [Int.floor_eq_iff]
      norm_num
    rw [hfl]
    norm_num

theorem C5_track_click_target_witness :
    (0:ℚ) < 300 ∧ (0:ℚ) < 1000 ∧
    handleTrackClick (some (⟨300⟩ : TrackElem)) (some (⟨0, 1000, 200⟩ : ContentElem)) 150 0 20
      = some (.fin 466) :=
  ⟨by norm_num, by norm_num,
    (C5_track_click_target ⟨300⟩ ⟨0, 1000, 200⟩ 150 0 20 (by norm_num) (by norm_num)).2⟩

/-- Claim C6: for every geometry with scrollHeight > 0, the thumb-sizing
operation sets the thumb height to max((clientHeight / scrollHeight) *
trackHeight, 20); in particular, for clientHeight=10, scrollHeight=10000,
trackHeight=300 the thumb height equals 20, not 0.3. -/
theorem C6_thumb_floor (c : ContentElem) (trackSize : ℚ) (h : 0 < c.scrollHeight) :
    handleResize c trackSize = .fin (max (c.clientHeight / c.scrollHeight * trackSize) 20)
    ∧ handleResize (⟨0, 10000, 10⟩ : ContentElem) 300 = .fin 20 := by
  constructor
  · rw [handleResize, jsDiv_fin _ _ (ne_of_gt h), jsMul_fin, jsMax_fin]
  · rw [handleResize, jsDiv_fin _ _ (by norm_num : (10000:ℚ) ≠ 0), jsMul_fin, jsMax_fin]
    norm_num

theorem C6_thumb_floor_witness :
    (0:ℚ) < 10000 ∧ handleResize (⟨0, 10000, 10⟩ : ContentElem) 300 = .fin 20 :=
  ⟨by norm_num, (C6_thumb_floor ⟨0, 10000, 10⟩ 300 (by norm_num)).2⟩

/-- Claim C7 concerns the behavior on unmeasured geometry.  The claim says
the computations dividing by scrollHeight short-circuit when scrollHeight
is 0, leaving the prior thumb state unchanged and never producing NaN or
Infinity.  The code has no such guard: this theorem evaluates the code at
scrollHeight = 0 and shows handleResize produces NaN (clientHeight 0) or
+Infinity (clientHeight 200), and the scroll-sync computation produces a
NaN thumb top, instead of leaving the prior state unchanged. -/
theorem C7_nan_on_unmeasured_geometry :
    handleResize (⟨0, 0, 0⟩ : ContentElem) 300 = JSNum.nan
    ∧ handleResize (⟨0, 0, 200⟩ : ContentElem) 300 = JSNum.posInf
    ∧ handleThumbPosition (some (⟨0, 0, 0⟩ : ContentElem)) (some (⟨300⟩ : TrackElem))
        (some (⟨.fin 0⟩ : ThumbElem)) 20 = some JSNum.nan := by
  refine ⟨?_, ?_, ?_⟩
  · simp [handleResize, jsDiv, jsMul, jsMax]
  · simp [handleResize, jsDiv, jsMul, jsMax]
  · simp [handleThumbPosition, jsDiv, jsMul, jsMin, jsSub]

/-- Claim C8 as stated is refuted at a concrete input: a pointer-move that
arrives while a drag session is active (isDragging = true) and the content
ref is unavailable does not no-op — the handler dereferences
contentRef.current! and faults. -/
theorem C8_counterexample :
    handleThumbMouseMove true 0 0 20 none 100 = MoveResult.fault
    ∧ handleThumbMouseMove true 0 0 20 none 100 ≠ MoveResult.noop := by
  constructor
  · rfl
  · intro h
    simp [handleThumbMouseMove] at h

/-- Claim C8, amended: scroll-sync, track click and the scroll buttons are
no-ops whenever any surface they touch is unavailable, and drag
pointer-move is a no-op when no drag session is active; but while a drag
session is active, pointer-move dereferences the content surface
unconditionally and faults if it is unavailable. -/
theorem C8_noop_on_missing_refs :
    (∀ (track : Option TrackElem) (thumb : Option ThumbElem) (h : ℚ),
      handleThumbPosition none track thumb h = none)
    ∧ (∀ (content : Option ContentElem) (thumb : Option ThumbElem) (h : ℚ),
      handleThumbPosition content none thumb h = none)
    ∧ (∀ (content : Option ContentElem) (track : Option TrackElem) (h : ℚ),
      handleThumbPosition content track none h = none)
    ∧ (∀ d : ScrollDirection, handleScrollButton none d = none)
    ∧ (∀ (content : Option ContentElem) (y yT h : ℚ),
      handleTrackClick none content y yT h = none)
    ∧ (∀ (track : Option TrackElem) (y yT h : ℚ),
      handleTrackClick track none y yT h = none)
    ∧ (∀ (y0 i h y : ℚ) (content : Option ContentElem),
      handleThumbMouseMove false y0 i h content y = MoveResult.noop)
    ∧ (∀ y0 i h y : ℚ, handleThumbMouseMove true y0 i h none y = MoveResult.fault) := by
  refine ⟨?_, ?_, ?_, ?_, ?_, ?_, ?_, ?_⟩
  · intro track thumb h
    cases track <;> cases thumb <;> rfl
  · intro content thumb h
    cases content <;> cases thumb <;> rfl
  · intro content track h
    cases content <;> cases track <;> rfl
  · intro d
    rfl
  · intro content y yT h
    cases content <;> rfl
  · intro track y yT h
    cases track <;> rfl
  · intro y0 i h y content
    rfl
  · intro y0 i h y
    rfl

/-- Claim C9: the scroll listener registered on the content's scroll event
is the first render's memoized closure (empty dependency list), so its
clamp always uses the initial thumb height 20, never a later height set by
the resize handler: for every geometry it writes
min((scrollTop / scrollHeight) * trackHeight, trackHeight - 20),
independent of the current thumb height state.  Consequently, with a
current thumb height of 60 (as handleResize computes for clientHeight=200,
scrollHeight=1000, trackHeight=300), the listener can write a top of 280,
which exceeds trackHeight - 60 = 240. -/
theorem C9_stale_thumb_height_clamp :
    (∀ (content : Option ContentElem) (track : Option TrackElem) (thumb : Option ThumbElem),
      registeredScrollListener content track thumb = handleThumbPosition content track thumb 20)
    ∧ (∀ (c : ContentElem) (t : TrackElem) (th : ThumbElem), 0 < c.scrollHeight →
        registeredScrollListener (some c) (some t) (some th)
          = some (.fin (min (c.scrollTop / c.scrollHeight * t.clientHeight)
              (t.clientHeight - 20))))
    ∧ handleResize (⟨0, 1000, 200⟩ : ContentElem) 300 = .fin 60
    ∧ registeredScrollListener (some (⟨3800, 4000, 200⟩ : ContentElem))
        (some (⟨300⟩ : TrackElem)) (some (⟨.fin 0⟩ : ThumbElem)) = some (.fin 280)
    ∧ (300:ℚ) - 60 < 280 ∧ (20:ℚ) < 60 := by
  refine ⟨fun _ _ _ => rfl, ?_, ?_, ?_, by norm_num, by norm_num⟩
  · intro c t th h
    rw [registeredScrollListener]
    simp only [handleThumbPosition, jsDiv_fin _ _ (ne_of_gt h), jsMul_fin, jsSub_fin, jsMin_fin]
  · rw [handleResize, jsDiv_fin _ _ (by norm_num : (1000:ℚ) ≠ 0), jsMul_fin, jsMax_fin]
    norm_num
  · rw [registeredScrollListener]
    simp only [handleThumbPosition, jsDiv_fin _ _ (by norm_num : (4000:ℚ) ≠ 0), jsMul_fin,
      jsSub_fin, jsMin_fin]
    have e1 : (3800:ℚ) / 4000 * 300 = 285 := by norm_num
    have e2 : (300:ℚ) - 20 = 280 := by norm_num
    rw [e1, e2, min_eq_right (by norm_num : (280:ℚ) ≤ 285)]

theorem C9_stale_thumb_height_clamp_witness :
    registeredScrollListener (some (⟨400, 1000, 200⟩ : ContentElem)) (some (⟨300⟩ : TrackElem))
        (some (⟨.fin 0⟩ : ThumbElem))
      = some (.fin (min (400 / 1000 * 300) (300 - 20))) :=
  C9_stale_thumb_height_clamp.2.1 ⟨400, 1000, 200⟩ ⟨300⟩ ⟨.fin 0⟩ (by norm_num)

/-- Claim C10: the track-click controller passes the computed target
offset to the content surface's scroll-to request without clamping: the
request is exactly the floor formula; every click with
clickY - trackTop < thumbHeight/2 yields a negative target (concretely,
a click at the track top with thumbHeight=20 requests -34); and a click at
the track bottom can exceed scrollHeight - clientHeight (concretely, 966 >
800 for trackHeight=300, thumbHeight=20, scrollHeight=1000,
clientHeight=200). -/
theorem C10_track_click_unclamped (t : TrackElem) (c : ContentElem) (y yT th : ℚ)
    (h1 : 0 < t.clientHeight) (h2 : 0 < c.scrollHeight) :
    handleTrackClick (some t) (some c) y yT th
      = some (.fin ((⌊((y - yT) - th / 2) / t.clientHeight * c.scrollHeight⌋ : ℤ) : ℚ))
    ∧ (y - yT < th / 2 →
        ∀ target : ℚ, handleTrackClick (some t) (some c) y yT th = some (.fin target)
          → target < 0)
    ∧ handleTrackClick (some (⟨300⟩ : TrackElem)) (some (⟨0, 1000, 200⟩ : ContentElem)) 0 0 20
        = some (.fin (-34))
    ∧ handleTrackClick (some (⟨300⟩ : TrackElem)) (some (⟨0, 1000, 200⟩ : ContentElem)) 300 0 20
        = some (.fin 966)
    ∧ (1000:ℚ) - 200 < 966 := by
  have hne : t.clientHeight ≠ 0 := ne_of_gt h1
  have main : handleTrackClick (some t) (some c) y yT th
      = some (.fin ((⌊((y - yT) - th / 2) / t.clientHeight * c.scrollHeight⌋ : ℤ) : ℚ)) := by
    simp only [handleTrackClick, jsDiv_fin _ _ (by norm_num : (2:ℚ) ≠ 0), jsNeg_fin,
      jsSub_fin, jsAdd_fin, jsDiv_fin _ _ hne, jsMul_fin, jsFloor_fin]
    have key : y - yT + -(th / 2) = (y - yT) - th / 2 := by ring
    rw [key]
  refine ⟨main, ?_, ?_, ?_, by norm_num⟩
  · intro hlt target htv
    rw [main] at htv
    simp only [Option.some.injEq, JSNum.fin.injEq] at htv
    have hx : ((y - yT) - th / 2) / t.clientHeight * c.scrollHeight < 0 :=
      mul_neg_of_neg_of_pos (div_neg_of_neg_of_pos (by linarith) h1) h2
    rw [← htv]
    exact lt_of_le_of_lt (Int.floor_le _) hx
  · simp only [handleTrackClick, jsDiv_fin _ _ (by norm_num : (2:ℚ) ≠ 0), jsNeg_fin,
      jsSub_fin, jsAdd_fin, jsDiv_fin _ _ (by norm_num : (300:ℚ) ≠ 0), jsMul_fin, jsFloor_fin]
    have k1 : ((0:ℚ) - 0 + -(20 / 2)) / 300 * 1000 = -100 / 3 := by norm_num
    rw [k1]
    have hfl : (⌊(-100:ℚ) / 3⌋ : ℤ) = -34 := by
      rw [Int.floor_eq_iff]
      norm_num
    rw [hfl]
    norm_num
  · simp only [handleTrackClick, jsDiv_fin _ _ (by norm_num : (2:ℚ) ≠ 0), jsNeg_fin,
      jsSub_fin, jsAdd_fin, jsDiv_fin _ _ (by norm_num : (300:ℚ) ≠ 0), jsMul_fin, jsFloor_fin]
    have k1 : ((300:ℚ) - 0 + -(20 / 2)) / 300 * 1000 = 2900 / 3 := by norm_num
    rw [k1]
    have hfl : (⌊(2900:ℚ) / 3⌋ : ℤ) = 966 := by
      rw [Int.floor_eq_iff]
      norm_num
    rw [hfl]
    norm_num

theorem C10_track_click_unclamped_witness :
    (0:ℚ) < 300 ∧ (0:ℚ) < 1000 ∧
    handleTrackClick (some (⟨300⟩ : TrackElem)) (some (⟨0, 1000, 200⟩ : ContentElem)) 300 0 20
      = some (.fin 966) :=
  ⟨by norm_num, by norm_num,
    (C10_track_click_unclamped ⟨300⟩ ⟨0, 1000, 200⟩ 300 0 20 (by norm_num)
      (by norm_num)).2.2.2.1⟩

end Scrollbar
